import Mathlib

set_option autoImplicit false

/-!
Verification of the frontend API state-coordination layer
(src/cmd/frontendapi/apisrv/apisrv.go) against its specification.

The Go source is shallowly embedded: each gRPC handler becomes a pure
function from the outcomes of its store calls to its returned values,
and the watcher goroutine becomes a fuel-indexed loop producing the
trace of channel / store / sleep events it performs.
-/

namespace OpenMatch

/-- frontend.Result message: a Success flag and an Error string. -/
structure Result where
  Success : Bool
  Error : String
deriving DecidableEq

/-- frontend.ConnectionInfo message: the assignment connection string. -/
structure ConnectionInfo where
  ConnectionString : String
deriving DecidableEq

/-- Events on a redis connection handle obtained from the pool:
the pool.Get / pool.GetContext call and the (deferred) Close. -/
inductive REvent where
  | acquire
  | close
deriving DecidableEq

/-- retrieveConnstring (apisrv.go): pool.GetContext with the Close deferred
before the acquisition error is checked, then an HGET of `field` in `key`.
`acqErr` is the pool.GetContext error (none = success) and `store` the
current store contents (key, field to value). Returns the (value, error)
pair as an Except and the resource-event trace of the call; the deferred
Close appears on every return path, including the failed-acquisition one. -/
def retrieveConnstring (acqErr : Option String)
    (store : String → String → Option String)
    (key field : String) : Except String String × List REvent :=
  match acqErr with
  | some e => (Except.error e, [REvent.acquire, REvent.close])
  | none =>
    match store key field with
    | some v => (Except.ok v, [REvent.acquire, REvent.close])
    | none => (Except.error "redigo: nil returned", [REvent.acquire, REvent.close])

/-- Environment for one execution of the watcher goroutine: what the
context, the pool and the store do at each loop iteration, and whether
the consumer is still receiving on the unbuffered channel when the
send happens. -/
structure WatchEnv where
  /-- whether ctx.Done() is ready when the select at the top of iteration i runs -/
  cancelled : Nat → Bool
  /-- pool.GetContext outcome inside the read of attempt i (none = success) -/
  acqErr : Nat → Option String
  /-- store contents (key, field to value) as of read attempt i -/
  store : Nat → String → String → Option String
  /-- whether the caller is still blocked receiving on watchChan at send time -/
  receiverReady : Bool

/-- Result of the retrieveConnstring call made at loop iteration i. -/
def readAttempt (env : WatchEnv) (key field : String) (i : Nat) :
    Except String String :=
  (retrieveConnstring (env.acqErr i) (env.store i) key field).1

instance : DecidableEq (Except String String) := fun x y =>
  match x, y with
  | Except.ok a, Except.ok b => decidable_of_iff (a = b) (by simp)
  | Except.error a, Except.error b => decidable_of_iff (a = b) (by simp)
  | Except.ok _, Except.error _ => isFalse fun h => Except.noConfusion h
  | Except.error _, Except.ok _ => isFalse fun h => Except.noConfusion h

/-- Observable events of the watcher goroutine: a store read (with its
result), the fixed backoff sleep, the send of the result on watchChan,
and the close of watchChan. -/
inductive WEvent where
  | read (i : Nat) (result : Except String String)
  | sleep (secs : Nat)
  | send (v : String)
  | close
deriving DecidableEq

/-- Terminal (or cut-off) state of the watcher goroutine. -/
inductive WState where
  /-- value sent on watchChan and watchChan closed -/
  | delivered (v : String)
  /-- ctx.Done() observed: watchChan closed, goroutine returned -/
  | cancelledClosed
  /-- read succeeded but nobody receives on the unbuffered watchChan:
  the goroutine is blocked in the send forever, watchChan never closed -/
  | blockedSend (v : String)
  /-- fuel exhausted while still looping -/
  | looping
deriving DecidableEq

/-- The watcher goroutine loop (apisrv.go): while err is non-nil, select on
ctx.Done() (on cancellation: close watchChan and return) else call
retrieveConnstring, sleeping a fixed 5 seconds when it fails; once a read
succeeds, send the value on watchChan and close it. `fuel` bounds the
number of iterations modelled; `i` counts iterations. Returns the event
trace and the state reached. -/
def watcherLoop (env : WatchEnv) (key field : String) :
    Nat → Nat → List WEvent × WState
  | 0, _ => ([], WState.looping)
  | fuel + 1, i =>
    if env.cancelled i then
      ([WEvent.close], WState.cancelledClosed)
    else
      match readAttempt env key field i with
      | Except.ok v =>
        if env.receiverReady then
          ([WEvent.read i (Except.ok v), WEvent.send v, WEvent.close],
            WState.delivered v)
        else
          ([WEvent.read i (Except.ok v)], WState.blockedSend v)
      | Except.error e =>
        let rest := watcherLoop env key field fuel (i + 1)
        (WEvent.read i (Except.error e) :: WEvent.sleep 5 :: rest.1, rest.2)

/-- The backoff the watcher applies before retry number `attempt`: the code
is a literal time.Sleep(5 * time.Second), the same for every attempt. -/
def watcherBackoff (_attempt : Nat) : Nat := 5

/-- Configuration fields consumed by the embedded handlers: the json key of
the connection-string field and the interval.resultsTimeout setting. -/
structure Config where
  connstringField : String
  resultsTimeout : Nat
deriving DecidableEq

/-- The reference configuration shipped with the repository
(jsonkeys.connstring = "connstring", interval.resultsTimeout = 30). -/
def cfgReference : Config := { connstringField := "connstring", resultsTimeout := 30 }

/-- The deadline GetAssignment passes to time.After: the code is the literal
30 seconds (its TODO notes it should be configurable); s.cfg is in scope
but not consulted, so the result ignores the configuration. -/
def getAssignmentTimeout (_cfg : Config) : Nat := 30

/-- The error text GetAssignment produces on the timeout path. -/
def timeoutErrMsg : String := "did not see matchmaking results in redis before timeout"

/-- GetAssignment (apisrv.go): select between time.After(30s) and a receive
on the watcher channel. `delivery` abstracts the watcher send as the time
it becomes ready and the value (none when no send ever happens). Returns
the ConnectionInfo, the error return (none = nil) and the time at which
the handler returns. -/
def getAssignment (cfg : Config) (delivery : Option (Nat × String)) :
    ConnectionInfo × Option String × Nat :=
  match delivery with
  | some (t, v) =>
    if t < getAssignmentTimeout cfg then
      ({ ConnectionString := v }, none, t)
    else
      ({ ConnectionString := "" }, some timeoutErrMsg, getAssignmentTimeout cfg)
  | none => ({ ConnectionString := "" }, some timeoutErrMsg, getAssignmentTimeout cfg)

/-- Actions the timeout branch of GetAssignment's select performs. The
cancel() call is present in the source only as a commented-out line
(with a TODO that cancelling ctx is not stopping the watcher). -/
inductive GAction where
  | logError
  | recordErrorStat
  | cancelWatcher
  | returnTimeoutError
deriving DecidableEq

/-- The timeout branch of GetAssignment, as written: log the error, record
the error metric, return the empty ConnectionInfo with the error. -/
def timeoutBranchActions : List GAction :=
  [GAction.logError, GAction.recordErrorStat, GAction.returnTimeoutError]

/-- CreateRequest (apisrv.go): pool.Get with deferred Close, then
playerq.Create; on error return Result(Success false, Error err) together
with the non-nil error, otherwise Result(Success true, Error "") with the
nil error. `createErr` abstracts the playerq.Create outcome. The third
component is the resource-event trace of the handler. -/
def createRequest (createErr : Option String) :
    Result × Option String × List REvent :=
  match createErr with
  | some e =>
    ({ Success := false, Error := e }, some e, [REvent.acquire, REvent.close])
  | none =>
    ({ Success := true, Error := "" }, none, [REvent.acquire, REvent.close])

/-- DeleteRequest (apisrv.go): same shape as CreateRequest around
playerq.Delete. -/
def deleteRequest (deleteErr : Option String) :
    Result × Option String × List REvent :=
  match deleteErr with
  | some e =>
    ({ Success := false, Error := e }, some e, [REvent.acquire, REvent.close])
  | none =>
    ({ Success := true, Error := "" }, none, [REvent.acquire, REvent.close])

/-- DeleteAssignment (apisrv.go): same shape as DeleteRequest, keyed by the
player id. -/
def deleteAssignment (deleteErr : Option String) :
    Result × Option String × List REvent :=
  match deleteErr with
  | some e =>
    ({ Success := false, Error := e }, some e, [REvent.acquire, REvent.close])
  | none =>
    ({ Success := true, Error := "" }, none, [REvent.acquire, REvent.close])

/-- A structured logger value: its list of ambient fields, newest first. -/
abbrev Logger := List (String × String)

/-- The package-level feLog as initialised at the top of apisrv.go. -/
def feLogStart : Logger :=
  [("app", "openmatch"), ("component", "frontend"),
    ("caller", "frontendapi/apisrv/apisrv.go")]

/-- The assignment the watcher performs on entry (apisrv.go):
feLog = feLog.WithFields(key); it reassigns the package-level logger,
returning the new shared logger state. -/
def watcherLogAssign (g : Logger) (key : String) : Logger :=
  ("key", key) :: g

/-- The identical reassignment of the package-level feLog performed on
entry to retrieveConnstring (apisrv.go). -/
def retrieveConnstringLogAssign (g : Logger) (key : String) : Logger :=
  ("key", key) :: g

/-- Modelled from the spec: the Visibility Filter's per-list configuration
(offset, duration). The ignore-list implementation itself lives in the
redis statestorage module, which is not among the provided sources; only
its configuration (ignoreLists.proposed / deindexed / expired) is. -/
structure IgnoreListCfg where
  offset : Nat
  duration : Nat
deriving DecidableEq

/-- Modelled from the spec: whether an entry inserted at time t0 hides its
player at time `now`: for duration 0 lists, from t0 + offset onwards; for
positive durations, on the window from t0 + offset up to (excluding)
t0 + offset + duration. -/
def entryHides (cfg : IgnoreListCfg) (t0 now : Nat) : Bool :=
  if cfg.duration = 0 then decide (t0 + cfg.offset ≤ now)
  else decide (t0 + cfg.offset ≤ now ∧ now < t0 + cfg.offset + cfg.duration)

/-- Modelled from the spec: MarkExcluded inserts an (id, insertion-time)
entry into the named list. -/
def markExcluded (entries : List (String × Nat)) (id : String) (t0 : Nat) :
    List (String × Nat) :=
  (id, t0) :: entries

/-- Modelled from the spec: IsVisible is true unless some entry for this id
currently hides it per entryHides. -/
def isVisible (cfg : IgnoreListCfg) (entries : List (String × Nat))
    (id : String) (now : Nat) : Bool :=
  !(entries.any fun e => e.1 == id && entryHides cfg e.2 now)

/-- Number of send events in a watcher trace. -/
def sendCount (evs : List WEvent) : Nat :=
  evs.countP fun e => match e with | WEvent.send _ => true | _ => false

/-- Number of close events in a watcher trace. -/
def closeCount (evs : List WEvent) : Nat :=
  evs.countP fun e => match e with | WEvent.close => true | _ => false

/-- The durations of the sleeps in a watcher trace, in order. -/
def sleepDurations (evs : List WEvent) : List Nat :=
  evs.filterMap fun e => match e with | WEvent.sleep s => some s | _ => none

/-- True when no event follows a close in the trace. -/
def noneAfterClose : List WEvent → Bool
  | [] => true
  | WEvent.close :: rest => rest.isEmpty
  | _ :: rest => noneAfterClose rest


/-! ### Unfolding lemmas for the four branches of the watcher loop -/

lemma watcherLoop_cancel (env : WatchEnv) (key field : String) (n i : Nat)
    (h : env.cancelled i = true) :
    watcherLoop env key field (n + 1) i = ([WEvent.close], WState.cancelledClosed) := by
  simp [watcherLoop, h]

lemma watcherLoop_ok (env : WatchEnv) (key field : String) (n i : Nat) (v : String)
    (hc : env.cancelled i = false) (h : readAttempt env key field i = Except.ok v)
    (hr : env.receiverReady = true) :
    watcherLoop env key field (n + 1) i =
      ([WEvent.read i (Except.ok v), WEvent.send v, WEvent.close], WState.delivered v) := by
  simp [watcherLoop, hc, h, hr]

lemma watcherLoop_ok_noRecv (env : WatchEnv) (key field : String) (n i : Nat) (v : String)
    (hc : env.cancelled i = false) (h : readAttempt env key field i = Except.ok v)
    (hr : env.receiverReady = false) :
    watcherLoop env key field (n + 1) i =
      ([WEvent.read i (Except.ok v)], WState.blockedSend v) := by
  simp [watcherLoop, hc, h, hr]

lemma watcherLoop_err (env : WatchEnv) (key field : String) (n i : Nat) (e : String)
    (hc : env.cancelled i = false) (h : readAttempt env key field i = Except.error e) :
    watcherLoop env key field (n + 1) i =
      (WEvent.read i (Except.error e) :: WEvent.sleep 5 ::
        (watcherLoop env key field n (i + 1)).1,
        (watcherLoop env key field n (i + 1)).2) := by
  simp [watcherLoop, hc, h]

/-! ### Trace invariants of the watcher loop -/

lemma watcherLoop_sendCount_le (env : WatchEnv) (key field : String) :
    ∀ fuel i, sendCount (watcherLoop env key field fuel i).1 ≤ 1 := by
  intro fuel
  induction fuel with
  | zero => intro i; simp [watcherLoop, sendCount]
  | succ n ih =>
    intro i
    cases hc : env.cancelled i with
    | true => simp [watcherLoop_cancel env key field n i hc, sendCount]
    | false =>
      cases h : readAttempt env key field i with
      | ok v =>
        cases hr : env.receiverReady with
        | true => simp [watcherLoop_ok env key field n i v hc h hr, sendCount]
        | false => simp [watcherLoop_ok_noRecv env key field n i v hc h hr, sendCount]
      | error e =>
        have := ih (i + 1)
        simpa [watcherLoop_err env key field n i e hc h, sendCount, List.countP_cons] using this

lemma watcherLoop_closeCount_le (env : WatchEnv) (key field : String) :
    ∀ fuel i, closeCount (watcherLoop env key field fuel i).1 ≤ 1 := by
  intro fuel
  induction fuel with
  | zero => intro i; simp [watcherLoop, closeCount]
  | succ n ih =>
    intro i
    cases hc : env.cancelled i with
    | true => simp [watcherLoop_cancel env key field n i hc, closeCount]
    | false =>
      cases h : readAttempt env key field i with
      | ok v =>
        cases hr : env.receiverReady with
        | true => simp [watcherLoop_ok env key field n i v hc h hr, closeCount]
        | false => simp [watcherLoop_ok_noRecv env key field n i v hc h hr, closeCount]
      | error e =>
        have := ih (i + 1)
        simpa [watcherLoop_err env key field n i e hc h, closeCount, List.countP_cons] using this

lemma watcherLoop_noneAfterClose (env : WatchEnv) (key field : String) :
    ∀ fuel i, noneAfterClose (watcherLoop env key field fuel i).1 = true := by
  intro fuel
  induction fuel with
  | zero => intro i; simp [watcherLoop, noneAfterClose]
  | succ n ih =>
    intro i
    cases hc : env.cancelled i with
    | true => simp [watcherLoop_cancel env key field n i hc, noneAfterClose]
    | false =>
      cases h : readAttempt env key field i with
      | ok v =>
        cases hr : env.receiverReady with
        | true => simp [watcherLoop_ok env key field n i v hc h hr, noneAfterClose]
        | false => simp [watcherLoop_ok_noRecv env key field n i v hc h hr, noneAfterClose]
      | error e =>
        have := ih (i + 1)
        simpa [watcherLoop_err env key field n i e hc h, noneAfterClose] using this

lemma watcherLoop_terminal_close (env : WatchEnv) (key field : String) :
    ∀ fuel i,
      ((∃ v, (watcherLoop env key field fuel i).2 = WState.delivered v) ∨
        (watcherLoop env key field fuel i).2 = WState.cancelledClosed) →
      closeCount (watcherLoop env key field fuel i).1 = 1 := by
  intro fuel
  induction fuel with
  | zero => intro i hterm; simp [watcherLoop] at hterm
  | succ n ih =>
    intro i hterm
    cases hc : env.cancelled i with
    | true => simp [watcherLoop_cancel env key field n i hc, closeCount]
    | false =>
      cases h : readAttempt env key field i with
      | ok v =>
        cases hr : env.receiverReady with
        | true => simp [watcherLoop_ok env key field n i v hc h hr, closeCount]
        | false =>
          rw [watcherLoop_ok_noRecv env key field n i v hc h hr] at hterm
          simp at hterm
      | error e =>
        rw [watcherLoop_err env key field n i e hc h] at hterm ⊢
        have := ih (i + 1) (by simpa using hterm)
        simpa [closeCount, List.countP_cons] using this

lemma watcherLoop_read_not_cancelled (env : WatchEnv) (key field : String) :
    ∀ fuel i k r, WEvent.read k r ∈ (watcherLoop env key field fuel i).1 →
      env.cancelled k = false := by
  intro fuel
  induction fuel with
  | zero => intro i k r hmem; simp [watcherLoop] at hmem
  | succ n ih =>
    intro i k r hmem
    cases hc : env.cancelled i with
    | true => rw [watcherLoop_cancel env key field n i hc] at hmem; simp at hmem
    | false =>
      cases h : readAttempt env key field i with
      | ok v =>
        cases hr : env.receiverReady with
        | true =>
          rw [watcherLoop_ok env key field n i v hc h hr] at hmem
          simp at hmem
          rcases hmem with ⟨hk, _⟩
          rwa [hk]
        | false =>
          rw [watcherLoop_ok_noRecv env key field n i v hc h hr] at hmem
          simp at hmem
          rcases hmem with ⟨hk, _⟩
          rwa [hk]
      | error e =>
        rw [watcherLoop_err env key field n i e hc h] at hmem
        simp at hmem
        rcases hmem with ⟨hk, _⟩ | hrest
        · rwa [hk]
        · exact ih (i + 1) k r hrest

lemma watcherLoop_sleep_five (env : WatchEnv) (key field : String) :
    ∀ fuel i s, WEvent.sleep s ∈ (watcherLoop env key field fuel i).1 → s = 5 := by
  intro fuel
  induction fuel with
  | zero => intro i s hmem; simp [watcherLoop] at hmem
  | succ n ih =>
    intro i s hmem
    cases hc : env.cancelled i with
    | true => rw [watcherLoop_cancel env key field n i hc] at hmem; simp at hmem
    | false =>
      cases h : readAttempt env key field i with
      | ok v =>
        cases hr : env.receiverReady with
        | true =>
          rw [watcherLoop_ok env key field n i v hc h hr] at hmem
          simp at hmem
        | false =>
          rw [watcherLoop_ok_noRecv env key field n i v hc h hr] at hmem
          simp at hmem
      | error e =>
        rw [watcherLoop_err env key field n i e hc h] at hmem
        simp at hmem
        rcases hmem with hk | hrest
        · exact hk
        · exact ih (i + 1) s hrest

lemma retrieveConnstring_events (aerr : Option String)
    (st : String → String → Option String) (key field : String) :
    (retrieveConnstring aerr st key field).2 = [REvent.acquire, REvent.close] := by
  cases aerr with
  | some e => rfl
  | none => cases h : st key field <;> simp [retrieveConnstring, h]

/-! ### Concrete environments used by the closed theorems below -/

/-- A run in which the store already holds the connection string when the
watcher starts and nothing ever fails or is cancelled. -/
def envA : WatchEnv :=
  { cancelled := fun _ => false, acqErr := fun _ => none,
    store := fun _ k f =>
      if k = "p1" ∧ f = "connstring" then some "10.0.0.5:7777" else none,
    receiverReady := true }

/-- A run in which every read attempt fails with a connection error. -/
def envFailAll : WatchEnv :=
  { cancelled := fun _ => false, acqErr := fun _ => some "connection refused",
    store := fun _ _ _ => none, receiverReady := true }

/-- A run whose context is already cancelled at the first iteration. -/
def envCancelled : WatchEnv :=
  { cancelled := fun _ => true, acqErr := fun _ => none,
    store := fun _ _ _ => none, receiverReady := true }

/-- The race GetAssignment's timeout path loses: the first six reads fail
(sleeping five seconds each, so the 30-second select deadline fires), the
seventh read succeeds just after the caller has returned, and the deferred
cancel lands only after the loop's last ctx check, so every check saw the
context alive; nobody receives on the unbuffered channel any more. -/
def envLeak : WatchEnv :=
  { cancelled := fun _ => false, acqErr := fun _ => none,
    store := fun i k f =>
      if 6 ≤ i ∧ k = "p1" ∧ f = "connstring" then some "10.0.0.5:7777" else none,
    receiverReady := false }

/-- A configuration whose interval.resultsTimeout deviates from the
reference value. -/
def cfgSeven : Config := { connstringField := "connstring", resultsTimeout := 7 }

/-- The proposed-list configuration from the reference config
(offset 0, duration 800). -/
def cfgProposed : IgnoreListCfg := { offset := 0, duration := 800 }


/-! ### Claim theorems -/

/-- C1: if the assignment record's connection-string field is already present
in the store when the watcher begins polling (attempt 0) and the pool yields
a connection, the very first read succeeds and the watcher delivers that
value, with no backoff sleep anywhere in its trace. -/
theorem watch_preexisting_record_delivers_immediately
    (env : WatchEnv) (key field v : String) (fuel : Nat)
    (hc : env.cancelled 0 = false) (ha : env.acqErr 0 = none)
    (hs : env.store 0 key field = some v) (hr : env.receiverReady = true) :
    watcherLoop env key field (fuel + 1) 0 =
      ([WEvent.read 0 (Except.ok v), WEvent.send v, WEvent.close],
        WState.delivered v) ∧
    sleepDurations (watcherLoop env key field (fuel + 1) 0).1 = [] := by
  have hread : readAttempt env key field 0 = Except.ok v := by
    simp [readAttempt, retrieveConnstring, ha, hs]
  refine ⟨watcherLoop_ok env key field fuel 0 v hc hread hr, ?_⟩
  rw [watcherLoop_ok env key field fuel 0 v hc hread hr]
  simp [sleepDurations]

theorem watch_preexisting_record_delivers_immediately_witness :
    watcherLoop envA "p1" "connstring" 4 0 =
      ([WEvent.read 0 (Except.ok "10.0.0.5:7777"), WEvent.send "10.0.0.5:7777",
        WEvent.close], WState.delivered "10.0.0.5:7777") ∧
    sleepDurations (watcherLoop envA "p1" "connstring" 4 0).1 = [] :=
  watch_preexisting_record_delivers_immediately envA "p1" "connstring"
    "10.0.0.5:7777" 3 rfl rfl (by decide) rfl

/-- C2: for a list configured with (offset, duration) and an id marked
excluded at t0 (with no other entry for that id), IsVisible is false exactly
on the window from t0 + offset up to (excluding) t0 + offset + duration when
duration is positive, false exactly from t0 + offset onwards when duration
is zero, and true otherwise. -/
theorem ignoreList_visibility_law (cfg : IgnoreListCfg) (es : List (String × Nat))
    (id : String) (t0 now : Nat) (hes : ∀ e ∈ es, e.1 ≠ id) :
    (0 < cfg.duration →
      (isVisible cfg (markExcluded es id t0) id now = false ↔
        (t0 + cfg.offset ≤ now ∧ now < t0 + cfg.offset + cfg.duration))) ∧
    (cfg.duration = 0 →
      (isVisible cfg (markExcluded es id t0) id now = false ↔
        t0 + cfg.offset ≤ now)) := by
  have hany : (es.any fun e => e.1 == id && entryHides cfg e.2 now) = false := by
    simp only [List.any_eq_false]
    intro e he
    simp [hes e he]
  have hvis : isVisible cfg (markExcluded es id t0) id now =
      !(entryHides cfg t0 now) := by
    simp [isVisible, markExcluded, List.any_cons, hany]
  constructor
  · intro hdur
    have hne : cfg.duration ≠ 0 := Nat.pos_iff_ne_zero.mp hdur
    rw [hvis]
    simp [entryHides, hne]
  · intro hdur
    rw [hvis]
    simp [entryHides, hdur]

theorem ignoreList_visibility_law_witness :
    isVisible cfgProposed (markExcluded [] "p1" 100) "p1" 100 = false :=
  ((ignoreList_visibility_law cfgProposed [] "p1" 100 100 (by simp)).1
    (by decide)).mpr (by decide)

/-- C3: any watcher run sends at most one value on watchChan, closes it at
most once with no event after the close, and when the run ends delivered or
cancelled the channel has been closed exactly once. -/
theorem watch_single_send_single_close (env : WatchEnv) (key field : String)
    (fuel i : Nat) :
    sendCount (watcherLoop env key field fuel i).1 ≤ 1 ∧
    closeCount (watcherLoop env key field fuel i).1 ≤ 1 ∧
    noneAfterClose (watcherLoop env key field fuel i).1 = true ∧
    (((∃ v, (watcherLoop env key field fuel i).2 = WState.delivered v) ∨
        (watcherLoop env key field fuel i).2 = WState.cancelledClosed) →
      closeCount (watcherLoop env key field fuel i).1 = 1) :=
  ⟨watcherLoop_sendCount_le env key field fuel i,
    watcherLoop_closeCount_le env key field fuel i,
    watcherLoop_noneAfterClose env key field fuel i,
    watcherLoop_terminal_close env key field fuel i⟩

theorem watch_single_send_single_close_witness :
    closeCount (watcherLoop envA "p1" "connstring" 3 0).1 = 1 :=
  (watch_single_send_single_close envA "p1" "connstring" 3 0).2.2.2
    (Or.inl ⟨"10.0.0.5:7777", by decide⟩)

/-- C4: when the loop observes ctx.Done at an iteration, it closes watchChan
and returns at once: no read is issued at that or any later iteration (every
read event in any watcher trace occurs at an iteration whose cancellation
check came back false), and every read that does run returns its pool
connection via the deferred Close, so nothing stays checked out. -/
theorem watch_cancellation_stops_loop (env : WatchEnv) (key field : String)
    (fuel i : Nat) (hc : env.cancelled i = true) :
    watcherLoop env key field (fuel + 1) i =
      ([WEvent.close], WState.cancelledClosed) ∧
    (∀ fuel2 j k r, WEvent.read k r ∈ (watcherLoop env key field fuel2 j).1 →
      env.cancelled k = false) ∧
    (∀ aerr st, (retrieveConnstring aerr st key field).2 =
      [REvent.acquire, REvent.close]) := by
  refine ⟨watcherLoop_cancel env key field fuel i hc, ?_, ?_⟩
  · intro fuel2 j k r hmem
    exact watcherLoop_read_not_cancelled env key field fuel2 j k r hmem
  · intro aerr st
    exact retrieveConnstring_events aerr st key field

theorem watch_cancellation_stops_loop_witness :
    watcherLoop envCancelled "p1" "connstring" 3 0 =
      ([WEvent.close], WState.cancelledClosed) :=
  (watch_cancellation_stops_loop envCancelled "p1" "connstring" 2 0 rfl).1

/-- C5 counterexample: with interval.resultsTimeout configured as 7 and no
assignment ever appearing, GetAssignment still returns at 30 seconds: the
select deadline is the hard-coded literal, not the configured timeout. -/
theorem getAssignment_timeout_ignores_config_cex :
    cfgSeven.resultsTimeout = 7 ∧
    (getAssignment cfgSeven none).2.2 = 30 ∧
    getAssignmentTimeout cfgSeven ≠ cfgSeven.resultsTimeout := by decide

/-- C5 amended: GetAssignment waits a fixed, hard-coded 30 seconds whatever
the configuration says (and with no caller override path); with no delivery
it returns the timeout error exactly at the 30-second mark, and a delivery
becoming ready only at or after the deadline still yields the timeout error
at 30 seconds, not later. -/
theorem getAssignment_fixed_thirty_second_timeout (cfg : Config) :
    getAssignmentTimeout cfg = 30 ∧
    getAssignment cfg none =
      ({ ConnectionString := "" }, some timeoutErrMsg, 30) ∧
    (∀ t v, 30 ≤ t → getAssignment cfg (some (t, v)) =
      ({ ConnectionString := "" }, some timeoutErrMsg, 30)) := by
  refine ⟨rfl, rfl, ?_⟩
  intro t v ht
  simp [getAssignment, getAssignmentTimeout, Nat.not_lt.mpr ht]

theorem getAssignment_fixed_thirty_second_timeout_witness :
    getAssignment cfgReference (some (45, "10.0.0.5:7777")) =
      ({ ConnectionString := "" }, some timeoutErrMsg, 30) :=
  (getAssignment_fixed_thirty_second_timeout cfgReference).2.2 45
    "10.0.0.5:7777" (by decide)

/-- C6 counterexample: in a run whose first three reads fail, the three
delays between attempts are each exactly 5 seconds — the backoff sequence
is constant, never growing, so the loop does not delay by exponential
backoff with jitter. -/
theorem watch_backoff_constant_cex :
    sleepDurations (watcherLoop envFailAll "p1" "connstring" 3 0).1 = [5, 5, 5] ∧
    watcherBackoff 1 = watcherBackoff 0 ∧
    ¬ watcherBackoff 0 < watcherBackoff 1 := by decide

/-- C6 amended: between consecutive failed poll attempts the watch loop
sleeps a fixed 5 seconds (trivially bounded above, but with no exponential
growth and no jitter), and it does check for cancellation before each retry:
every read in the trace happens at an iteration whose ctx.Done check came
back not-ready. -/
theorem watch_fixed_backoff_checks_cancellation (env : WatchEnv)
    (key field : String) (fuel i : Nat) :
    (∀ s, WEvent.sleep s ∈ (watcherLoop env key field fuel i).1 → s = 5) ∧
    (∀ k r, WEvent.read k r ∈ (watcherLoop env key field fuel i).1 →
      env.cancelled k = false) ∧
    (∀ a, watcherBackoff a = 5) :=
  ⟨fun s hmem => watcherLoop_sleep_five env key field fuel i s hmem,
    fun k r hmem => watcherLoop_read_not_cancelled env key field fuel i k r hmem,
    fun _ => rfl⟩

theorem watch_fixed_backoff_checks_cancellation_witness :
    envFailAll.cancelled 0 = false :=
  (watch_fixed_backoff_checks_cancellation envFailAll "p1" "connstring" 3 0).2.1
    0 (Except.error "connection refused") (by decide)

/-- C7: the timeout branch of GetAssignment performs no cancellation of the
watcher (the cancel() call is commented out), and in the race where the read
succeeds just after the 30-second deadline fired, the watcher ends blocked
forever in the send on the unbuffered channel with the channel never closed:
the timeout error is returned while the background task and its channel
leak. -/
theorem getAssignment_timeout_leaks_watcher :
    GAction.cancelWatcher ∉ timeoutBranchActions ∧
    (getAssignment cfgReference none).2.1 = some timeoutErrMsg ∧
    (watcherLoop envLeak "p1" "connstring" 8 0).2 =
      WState.blockedSend "10.0.0.5:7777" ∧
    closeCount (watcherLoop envLeak "p1" "connstring" 8 0).1 = 0 := by decide

/-- C8: CreateRequest maps a successful ledger create to Result with Success
true and empty Error alongside a nil error, and a failed create to Result
with Success false carrying the store error message together with that same
non-nil error. -/
theorem createRequest_propagates_store_error (createErr : Option String) :
    (createErr = none →
      (createRequest createErr).1 = { Success := true, Error := "" } ∧
      (createRequest createErr).2.1 = none) ∧
    (∀ e, createErr = some e →
      (createRequest createErr).1 = { Success := false, Error := e } ∧
      (createRequest createErr).2.1 = some e ∧
      (createRequest createErr).2.1 ≠ none) := by
  constructor
  · rintro rfl
    exact ⟨rfl, rfl⟩
  · rintro e rfl
    exact ⟨rfl, rfl, by simp [createRequest]⟩

theorem createRequest_propagates_store_error_witness :
    (createRequest (some "Player id already exists")).1 =
      { Success := false, Error := "Player id already exists" } :=
  ((createRequest_propagates_store_error (some "Player id already exists")).2
    "Player id already exists" rfl).1

/-- C9 counterexample: running the watcher for key p1 changes the shared
package-level logger state (feLog is reassigned), and the watched key leaks
into the fields every later call observes. -/
theorem logger_shared_state_mutated_cex :
    watcherLogAssign feLogStart "p1" ≠ feLogStart ∧
    ("key", "p1") ∈ watcherLogAssign feLogStart "p1" := by decide

/-- C9 amended: the watcher and retrieveConnstring both reassign the
package-level feLog, prepending the watched key to the shared field list,
so the key becomes visible in the logging state observed by every
subsequent call in the process. -/
theorem logger_shared_state_mutated (g : Logger) (key : String) :
    watcherLogAssign g key = ("key", key) :: g ∧
    retrieveConnstringLogAssign g key = ("key", key) :: g ∧
    ("key", key) ∈ watcherLogAssign g key :=
  ⟨rfl, rfl, List.mem_cons_self _ _⟩

/-- C10: each handler that takes a pool connection closes it exactly once on
both the success and the error path, and retrieveConnstring's deferred Close
runs even when the acquisition itself failed. -/
theorem connection_closed_on_every_path (createErr deleteErr daErr aerr : Option String)
    (st : String → String → Option String) (key field : String) :
    (createRequest createErr).2.2 = [REvent.acquire, REvent.close] ∧
    (deleteRequest deleteErr).2.2 = [REvent.acquire, REvent.close] ∧
    (deleteAssignment daErr).2.2 = [REvent.acquire, REvent.close] ∧
    (retrieveConnstring aerr st key field).2 = [REvent.acquire, REvent.close] ∧
    (aerr.isSome = true →
      REvent.close ∈ (retrieveConnstring aerr st key field).2) := by
  refine ⟨?_, ?_, ?_, retrieveConnstring_events aerr st key field, ?_⟩
  · cases createErr <;> rfl
  · cases deleteErr <;> rfl
  · cases daErr <;> rfl
  · intro _
    rw [retrieveConnstring_events aerr st key field]
    simp

theorem connection_closed_on_every_path_witness :
    REvent.close ∈ (retrieveConnstring (some "pool exhausted")
      (fun _ _ => none) "p1" "connstring").2 :=
  (connection_closed_on_every_path none none none (some "pool exhausted")
    (fun _ _ => none) "p1" "connstring").2.2.2.2 rfl

end OpenMatch
